import Mathlib

/-!
Shallow embedding of `src/twi.py` (a Streamlit data-collection app backed by
two Google-Sheets tables, "twi_users" and "twi_dataset").

Modelling conventions:
* A sheet is a `List` of row records; `get_all_records` returns the data rows
  (header row excluded), so sheet row `i` (1-indexed, header = row 1) is data
  index `i - 2` in the list.
* Python `str.strip()` is `pyStrip` (drop leading and trailing whitespace),
  `str.lower()` is `pyLower` (lowercase every character); both are defined
  on the string's character list (the app's data is ASCII).
* Wall-clock time is modelled by `Rat`; `time.sleep` is idealized as exact and
  the clock as monotone, so the `time.time()` call after a sleep of `d`
  starting at `t` returns `t + d`.
* A remote call that may raise is modelled by an `Except String` argument
  (the exception text) or a `Bool` success flag; `st.error` / `st.warning`
  messages are modelled by returned outcome values.
* Session state (`st.session_state.logged_in` / `username` / `is_admin`) is
  the `Session` structure, threaded explicitly.
-/

namespace Twi

/-- Python `str.lower()` restricted to ASCII: lowercase every character. -/
def pyLower (s : String) : String :=
  ⟨s.data.map Char.toLower⟩

/-- Python `str.strip()` restricted to ASCII whitespace: drop leading and
trailing whitespace characters. -/
def pyStrip (s : String) : String :=
  ⟨((s.data.dropWhile Char.isWhitespace).reverse.dropWhile Char.isWhitespace).reverse⟩

/-- Row of the "twi_users" sheet, fields in the column order written by
registration: `[name, momo_contact, call_contact, username, password, email, momo_name]`. -/
structure UserRow where
  name : String
  momo_contact : String
  call_contact : String
  username : String
  password : String
  email : String
  momo_name : String
deriving DecidableEq, Repr

/-- Row of the "twi_dataset" sheet, fields in the column order written by
the data-collection form: `[date, ewe, english, username]` (the source-language
column is keyed `ewe` in the duplicate check at twi.py:319). -/
structure DatasetRow where
  date : String
  ewe : String
  english : String
  username : String
deriving DecidableEq, Repr

/-! ## Rate limiter (twi.py lines 51-67)

The decorator keeps `wrapper.last_called`; on a call at `current_time` it
sleeps `time_window - (current_time - last_called)` when that is positive,
then records `time.time()` (the wake time) as the new `last_called` and only
then runs the wrapped function. `rateLimitStep` returns the start time of the
guarded execution together with the updated limiter state; the wrapped
operation runs at that start time, after the state update. -/

structure LimiterState where
  last_called : Rat
deriving DecidableEq, Repr

def rateLimitStep (time_window : Rat) (st : LimiterState) (current_time : Rat) :
    Rat × LimiterState :=
  let time_since_last_call := current_time - st.last_called
  if time_since_last_call < time_window then
    let start := current_time + (time_window - time_since_last_call)
    (start, ⟨start⟩)
  else
    (current_time, ⟨current_time⟩)

/-- Interval used by every data-access function in twi.py (`time_window=2.0`
at lines 81, 93, 105, 119, 133, 151). -/
def DATA_TIME_WINDOW : Rat := 2

/-! ## Cached reads and the fetch-error path (twi.py lines 80-102)

`get_users_data` / `get_dataset_data` wrap the remote `get_all_records` call
in `try/except`: on an exception they display an error message and return the
empty list. The remote call's outcome is modelled by an `Except String`
argument; the returned pair is (records handed to the caller, error messages
displayed). -/

def get_users_data (fetch : Except String (List UserRow)) :
    List UserRow × List String :=
  match fetch with
  | .ok records => (records, [])
  | .error e => ([], ["Error fetching users data: " ++ e])

def get_dataset_data (fetch : Except String (List DatasetRow)) :
    List DatasetRow × List String :=
  match fetch with
  | .ok records => (records, [])
  | .error e => ([], ["Error fetching dataset: " ++ e])

/-! ## Write operations with cache invalidation (twi.py lines 105-131)

`st.cache_data` keeps a snapshot of a read for its TTL window; `clear()`
drops it. A collection is modelled as the remote table plus an optional
cached snapshot (`some v` = a live snapshot `v` inside the TTL window,
`none` = invalidated or expired). `cachedRead` serves the snapshot when live
and otherwise fetches the remote table and stores it. `add_user_data` /
`add_dataset_entry` append a row remotely and, only on success, clear the
cache; on an exception they display an error and return `False`, touching
neither the table nor the cache. The `remoteOk` flag models whether the
remote append raises. -/

structure TableState (α : Type) where
  remote : List α
  cache : Option (List α)
deriving DecidableEq, Repr

def cachedRead {α : Type} (s : TableState α) : List α × TableState α :=
  match s.cache with
  | some v => (v, s)
  | none => (s.remote, ⟨s.remote, some s.remote⟩)

def add_user_data (s : TableState UserRow) (user_data : UserRow)
    (remoteOk : Bool) : Bool × TableState UserRow :=
  if remoteOk then (true, ⟨s.remote ++ [user_data], none⟩)
  else (false, s)

def add_dataset_entry (s : TableState DatasetRow) (entry_data : DatasetRow)
    (remoteOk : Bool) : Bool × TableState DatasetRow :=
  if remoteOk then (true, ⟨s.remote ++ [entry_data], none⟩)
  else (false, s)

/-! ## Deleting a user (twi.py lines 133-149)

`delete_user_by_username` fetches the users sheet, walks
`enumerate(users_list, start=2)` (sheet row of the first data row is 2), and
on the first case-insensitive username match deletes that sheet row, clears
the users cache and returns `True`; if the loop finishes without a match it
returns `False` and the cache is not touched. `findMatchIndexFrom` embeds
the enumerate loop; deleting sheet row `i` is `eraseIdx (i - 2)` on the data
rows. -/

def findMatchIndexFrom (username_to_delete : String) :
    Nat → List UserRow → Option Nat
  | _, [] => none
  | i, user :: rest =>
    if pyLower user.username == pyLower username_to_delete then some i
    else findMatchIndexFrom username_to_delete (i + 1) rest

structure DeleteUserResult where
  deleted : Bool
  remote : List UserRow
  cacheCleared : Bool
deriving DecidableEq, Repr

def delete_user_by_username (users_list : List UserRow)
    (username_to_delete : String) : DeleteUserResult :=
  match findMatchIndexFrom username_to_delete 2 users_list with
  | some i => ⟨true, users_list.eraseIdx (i - 2), true⟩
  | none => ⟨false, users_list, false⟩

/-! ## Deleting all contributions of a user (twi.py lines 151-170)

`delete_contributions_by_username` fetches the dataset sheet directly
(`get_all_records` on the sheet object, not the cached `get_dataset_data`),
collects the 1-indexed sheet positions of every row whose username matches
case-insensitively (`enumerate(dataset_rows, start=2)`), deletes those sheet
rows from highest position to lowest (`reversed(rows_to_delete)`), clears
the dataset cache, and returns how many rows it targeted. The
`dataset_rows` argument is that freshly fetched remote table. -/

def rowsToDeleteFrom (username : String) : Nat → List DatasetRow → List Nat
  | _, [] => []
  | i, row :: rest =>
    if pyLower row.username == pyLower username then
      i :: rowsToDeleteFrom username (i + 1) rest
    else
      rowsToDeleteFrom username (i + 1) rest

structure DeleteContribResult where
  count : Nat
  remote : List DatasetRow
  cacheCleared : Bool
deriving DecidableEq, Repr

def delete_contributions_by_username (dataset_rows : List DatasetRow)
    (username : String) : DeleteContribResult :=
  let rows_to_delete := rowsToDeleteFrom username 2 dataset_rows
  ⟨rows_to_delete.length,
   rows_to_delete.reverse.foldl (fun t row_index => t.eraseIdx (row_index - 2)) dataset_rows,
   true⟩

/-! ## Session state and the login form (twi.py lines 172-178 and 391-425)

The login handler strips both fields; empty fields give an error; the
hardcoded pair (username lowering to "admin", password "1345") sets the
admin session without reading the users table; otherwise the handler fetches
the users table and walks it, logging in as the first row whose username
matches case-insensitively and whose password is equal (exact string
comparison), else reports wrong credentials and leaves the session as it
was. -/

structure Session where
  logged_in : Bool
  username : String
  is_admin : Bool
deriving DecidableEq, Repr

inductive LoginOutcome where
  | errorEmpty
  | adminSuccess
  | userSuccess
  | errorWrong
deriving DecidableEq, Repr

def login_submit (users : List UserRow) (session : Session)
    (username100 password100 : String) : LoginOutcome × Session :=
  let username100 := pyStrip username100
  let password100 := pyStrip password100
  if username100 == "" || password100 == "" then
    (.errorEmpty, session)
  else if pyLower username100 == "admin" && password100 == "1345" then
    (.adminSuccess, ⟨true, "admin", true⟩)
  else
    match users.find? (fun user =>
        pyLower user.username == pyLower username100 &&
        user.password == password100) with
    | some user => (.userSuccess, ⟨true, user.username, false⟩)
    | none => (.errorWrong, session)

/-! ## Registration form (twi.py lines 348-389)

All eight fields are stripped; empty name/username/password, password
mismatch, or password shorter than 4 characters fail before anything else
runs; then the handler reads the users collection through the cached
`get_users_data` (a remote fetch only when no live snapshot exists — modelled
by the `usersCache` argument, with `remoteUsers` the table a fetch returns)
and rejects a case-insensitive username collision; otherwise it appends
`[name, momo_contact, call_contact, username, password, email, momo_name]`.
`remoteReads` / `remoteWrites` count the remote spreadsheet calls the
interaction issues (an attempted failing append still counts as a call). -/

def username_exists (users : List UserRow) (username : String) : Bool :=
  users.any (fun user => pyLower user.username == pyLower username)

inductive RegOutcome where
  | errorEmpty
  | errorMismatch
  | errorTooShort
  | errorDuplicate
  | success
  | errorFailed
deriving DecidableEq, Repr

structure RegResult where
  outcome : RegOutcome
  remoteUsers : List UserRow
  remoteReads : Nat
  remoteWrites : Nat
deriving DecidableEq, Repr

def registration_submit (usersCache : Option (List UserRow))
    (remoteUsers : List UserRow)
    (name username password repassword momo_contact momo_name call_contact email : String)
    (appendOk : Bool) : RegResult :=
  let name := pyStrip name
  let username := pyStrip username
  let password := pyStrip password
  let repassword := pyStrip repassword
  let momo_contact := pyStrip momo_contact
  let momo_name := pyStrip momo_name
  let call_contact := pyStrip call_contact
  let email := pyStrip email
  if name == "" || username == "" || password == "" then
    ⟨.errorEmpty, remoteUsers, 0, 0⟩
  else if password != repassword then
    ⟨.errorMismatch, remoteUsers, 0, 0⟩
  else if password.length < 4 then
    ⟨.errorTooShort, remoteUsers, 0, 0⟩
  else
    let users := usersCache.getD remoteUsers
    let reads : Nat := if usersCache.isSome then 0 else 1
    if username_exists users username then
      ⟨.errorDuplicate, remoteUsers, reads, 0⟩
    else if appendOk then
      ⟨.success,
       remoteUsers ++ [⟨name, momo_contact, call_contact, username, password, email, momo_name⟩],
       reads, 1⟩
    else
      ⟨.errorFailed, remoteUsers, reads, 1⟩

/-! ## Data-collection form (twi.py lines 300-342)

The handler checks that both stripped texts are nonempty, then scans the
`dataset` list fetched earlier in the same run (twi.py:279, the cached read)
for a row whose stripped-and-lowered `ewe` and `english` fields equal the
stripped-and-lowered submission and whose username equals the session
username case-insensitively; a hit shows a duplicate warning and nothing is
appended, otherwise `[date, twi.strip(), english.strip(), username]` is
appended to the remote dataset sheet. `remote` is the remote sheet's data
rows and `writes` counts attempted remote append calls. -/

def duplicate_found (dataset : List DatasetRow)
    (twi english sessionUsername : String) : Bool :=
  dataset.any (fun row =>
    pyLower (pyStrip row.ewe) == pyLower (pyStrip twi) &&
    pyLower (pyStrip row.english) == pyLower (pyStrip english) &&
    pyLower row.username == pyLower sessionUsername)

inductive SubmitOutcome where
  | errorEmpty
  | warnDuplicate
  | success
  | errorFailed
deriving DecidableEq, Repr

structure SubmitResult where
  outcome : SubmitOutcome
  remote : List DatasetRow
  writes : Nat
deriving DecidableEq, Repr

def data_collection_submit (dataset : List DatasetRow) (sessionUsername : String)
    (select_date twi english : String) (remote : List DatasetRow)
    (appendOk : Bool) : SubmitResult :=
  if pyStrip twi == "" || pyStrip english == "" then
    ⟨.errorEmpty, remote, 0⟩
  else if duplicate_found dataset twi english sessionUsername then
    ⟨.warnDuplicate, remote, 0⟩
  else if appendOk then
    ⟨.success, remote ++ [⟨select_date, pyStrip twi, pyStrip english, sessionUsername⟩], 1⟩
  else
    ⟨.errorFailed, remote, 1⟩

/-! ## Theorems -/

/-- C2: successive guarded calls through one limiter are spaced at least the
configured interval apart. Since the recorded `last_called` is always the
start time of the previous guarded execution, the start of the next guarded
execution is at least `time_window` later (2.0 for the data-access
functions); when the elapsed time is smaller than the interval the caller
sleeps exactly the remaining difference, and the limiter state is updated to
the start time before the wrapped operation runs. -/
theorem rate_limit_spaces_calls (time_window : Rat) (st : LimiterState)
    (current_time : Rat) :
    (rateLimitStep time_window st current_time).1 - st.last_called ≥ time_window ∧
    (rateLimitStep time_window st current_time).2.last_called =
      (rateLimitStep time_window st current_time).1 ∧
    (current_time - st.last_called < time_window →
      (rateLimitStep time_window st current_time).1 =
        current_time + (time_window - (current_time - st.last_called))) ∧
    (rateLimitStep DATA_TIME_WINDOW st current_time).1 - st.last_called ≥ 2 := by
  refine ⟨?_, ?_, ?_, ?_⟩
  · unfold rateLimitStep
    dsimp only
    split
    · dsimp only
      linarith
    · dsimp only
      linarith [not_lt.mp (by assumption : ¬ current_time - st.last_called < time_window)]
  · unfold rateLimitStep
    dsimp only
    split <;> rfl
  · intro h
    unfold rateLimitStep
    dsimp only
    rw [if_pos h]
  · unfold rateLimitStep DATA_TIME_WINDOW
    dsimp only
    split
    · dsimp only
      linarith
    · dsimp only
      linarith [not_lt.mp (by assumption : ¬ current_time - st.last_called < (2 : Rat))]

/-- Witness for `rate_limit_spaces_calls` at a concrete input: a call 0.5
after the previous start sleeps 1.5 and starts exactly 2.0 after it. -/
theorem rate_limit_spaces_calls_witness :
    (rateLimitStep 2 ⟨10⟩ (21/2)).1 = 21/2 + (2 - (21/2 - 10)) :=
  (rate_limit_spaces_calls 2 ⟨10⟩ (21/2)).2.2.1 (by norm_num)

/-- C4: a successful append invalidates the cached read of the affected
collection — so the immediately following read returns the table with the
new row, even when a cached snapshot was live — and returns success; a
failed append returns failure and leaves both the table and the cache
exactly as they were. Stated for both append operations. -/
theorem append_invalidates_cache (su : TableState UserRow) (u : UserRow)
    (sd : TableState DatasetRow) (d : DatasetRow) :
    add_user_data su u true = (true, ⟨su.remote ++ [u], none⟩) ∧
    (cachedRead (add_user_data su u true).2).1 = su.remote ++ [u] ∧
    add_user_data su u false = (false, su) ∧
    add_dataset_entry sd d true = (true, ⟨sd.remote ++ [d], none⟩) ∧
    (cachedRead (add_dataset_entry sd d true).2).1 = sd.remote ++ [d] ∧
    add_dataset_entry sd d false = (false, sd) := by
  refine ⟨rfl, rfl, rfl, rfl, rfl, rfl⟩

/-- C5: when the remote read raises, each cached-read operation reports the
failure as a user-visible message and returns the empty collection instead
of propagating the exception; the collection handed to the caller is then
identical to the one a legitimately empty table produces. -/
theorem fetch_error_returns_empty (e : String) :
    get_users_data (.error e) = ([], ["Error fetching users data: " ++ e]) ∧
    (get_users_data (.error e)).1 = (get_users_data (.ok [])).1 ∧
    get_dataset_data (.error e) = ([], ["Error fetching dataset: " ++ e]) ∧
    (get_dataset_data (.error e)).1 = (get_dataset_data (.ok [])).1 := by
  refine ⟨rfl, rfl, rfl, rfl⟩

theorem rowsToDeleteFrom_ge (username : String) (s : Nat) (l : List DatasetRow) :
    ∀ i ∈ rowsToDeleteFrom username s l, s ≤ i := by
  induction l generalizing s with
  | nil => intro i hi; cases hi
  | cons row rest ih =>
    intro i hi
    unfold rowsToDeleteFrom at hi
    by_cases hm : pyLower row.username == pyLower username
    · rw [if_pos hm] at hi
      rcases List.mem_cons.mp hi with h | h
      · omega
      · have := ih (s + 1) i h
        omega
    · rw [if_neg hm] at hi
      have := ih (s + 1) i hi
      omega

theorem foldl_eraseIdx_cons {α : Type} (r : α) (t : List α) (s : Nat)
    (l : List Nat) (h : ∀ i ∈ l, s + 1 ≤ i) :
    l.foldl (fun acc i => acc.eraseIdx (i - s)) (r :: t) =
      r :: l.foldl (fun acc i => acc.eraseIdx (i - (s + 1))) t := by
  induction l generalizing t with
  | nil => rfl
  | cons i l' ih =>
    have hi : s + 1 ≤ i := h i (List.mem_cons_self i l')
    have hsub : i - s = (i - (s + 1)) + 1 := by omega
    simp only [List.foldl_cons, hsub, List.eraseIdx_cons_succ]
    exact ih (t.eraseIdx (i - (s + 1))) (fun j hj => h j (List.mem_cons_of_mem i hj))

theorem delete_fold_eq_filter (username : String) (s : Nat) (l : List DatasetRow) :
    (rowsToDeleteFrom username s l).reverse.foldl
        (fun t i => t.eraseIdx (i - s)) l =
      l.filter (fun row => !(pyLower row.username == pyLower username)) := by
  induction l generalizing s with
  | nil => rfl
  | cons row rest ih =>
    have hge : ∀ i ∈ (rowsToDeleteFrom username (s + 1) rest).reverse, s + 1 ≤ i := by
      intro i hi
      exact rowsToDeleteFrom_ge username (s + 1) rest i (List.mem_reverse.mp hi)
    unfold rowsToDeleteFrom
    by_cases hm : pyLower row.username == pyLower username
    · rw [if_pos hm]
      rw [List.reverse_cons, List.foldl_append]
      rw [foldl_eraseIdx_cons row rest s _ hge]
      simp only [List.foldl_cons, List.foldl_nil, Nat.sub_self, List.eraseIdx_cons_zero]
      rw [ih (s + 1)]
      simp [List.filter_cons, hm]
    · rw [if_neg hm]
      rw [foldl_eraseIdx_cons row rest s _ hge]
      rw [ih (s + 1)]
      have hm' : (!(pyLower row.username == pyLower username)) = true := by
        simp [hm]
      simp [List.filter_cons, hm']

theorem rowsToDeleteFrom_length (username : String) (s : Nat) (l : List DatasetRow) :
    (rowsToDeleteFrom username s l).length =
      (l.filter (fun row => pyLower row.username == pyLower username)).length := by
  induction l generalizing s with
  | nil => rfl
  | cons row rest ih =>
    unfold rowsToDeleteFrom
    by_cases hm : pyLower row.username == pyLower username
    · rw [if_pos hm]
      simp [List.filter_cons, hm, ih (s + 1)]
    · rw [if_neg hm]
      simp [List.filter_cons, hm, ih (s + 1)]

/-- C3: deleting all contributions of a username removes exactly the rows
whose username field matches case-insensitively (deleting sheet positions in
descending order, so the remaining table is the filter of the fetched
table), reports the number of targeted rows, and clears the dataset cache;
when no row matches it deletes nothing and reports zero without error. -/
theorem delete_contributions_spec (dataset_rows : List DatasetRow) (username : String) :
    (delete_contributions_by_username dataset_rows username).remote =
      dataset_rows.filter (fun row => !(pyLower row.username == pyLower username)) ∧
    (delete_contributions_by_username dataset_rows username).count =
      (dataset_rows.filter (fun row => pyLower row.username == pyLower username)).length ∧
    (delete_contributions_by_username dataset_rows username).cacheCleared = true ∧
    ((∀ row ∈ dataset_rows, ¬ pyLower row.username = pyLower username) →
      delete_contributions_by_username dataset_rows username = ⟨0, dataset_rows, true⟩) := by
  refine ⟨?_, ?_, rfl, ?_⟩
  · exact delete_fold_eq_filter username 2 dataset_rows
  · exact rowsToDeleteFrom_length username 2 dataset_rows
  · intro hnone
    have hfilter_all :
        dataset_rows.filter (fun row => !(pyLower row.username == pyLower username)) =
          dataset_rows := by
      rw [List.filter_eq_self]
      intro row hrow
      simp [hnone row hrow]
    have hfilter_nil :
        dataset_rows.filter (fun row => pyLower row.username == pyLower username) = [] := by
      rw [List.filter_eq_nil_iff]
      intro row hrow
      simp [hnone row hrow]
    have h1 := delete_fold_eq_filter username 2 dataset_rows
    have h2 := rowsToDeleteFrom_length username 2 dataset_rows
    unfold delete_contributions_by_username at h1 h2 ⊢
    dsimp only at h1 h2 ⊢
    rw [hfilter_all] at h1
    rw [hfilter_nil] at h2
    simp only [List.length_nil] at h2
    rw [h1, h2]

/-- Witness for `delete_contributions_spec`: on a table with no matching row
the operation deletes nothing and reports zero. -/
theorem delete_contributions_spec_witness :
    delete_contributions_by_username
        [⟨"2024-01-01", "a", "b", "ama"⟩, ⟨"2024-01-02", "c", "d", "yaw"⟩] "kofi" =
      ⟨0, [⟨"2024-01-01", "a", "b", "ama"⟩, ⟨"2024-01-02", "c", "d", "yaw"⟩], true⟩ :=
  (delete_contributions_spec
      [⟨"2024-01-01", "a", "b", "ama"⟩, ⟨"2024-01-02", "c", "d", "yaw"⟩] "kofi").2.2.2
    (by decide)

theorem findMatchIndexFrom_none (username_to_delete : String) (s : Nat)
    (l : List UserRow)
    (ha : l.any (fun user => pyLower user.username == pyLower username_to_delete) = false) :
    findMatchIndexFrom username_to_delete s l = none := by
  induction l generalizing s with
  | nil => rfl
  | cons user rest ih =>
    rw [List.any_cons, Bool.or_eq_false_iff] at ha
    unfold findMatchIndexFrom
    rw [if_neg (by simp [ha.1])]
    exact ih (s + 1) ha.2

theorem findMatchIndexFrom_some (username_to_delete : String) (s : Nat)
    (l : List UserRow)
    (ha : l.any (fun user => pyLower user.username == pyLower username_to_delete) = true) :
    findMatchIndexFrom username_to_delete s l =
      some (s + l.findIdx (fun user => pyLower user.username == pyLower username_to_delete)) := by
  induction l generalizing s with
  | nil => cases ha
  | cons user rest ih =>
    unfold findMatchIndexFrom
    by_cases hm : pyLower user.username == pyLower username_to_delete
    · rw [if_pos hm]
      simp [List.findIdx_cons, hm]
    · have hm' : (pyLower user.username == pyLower username_to_delete) = false := by
        simpa using hm
      have ha' : rest.any (fun user => pyLower user.username == pyLower username_to_delete) = true := by
        simpa [List.any_cons, hm'] using ha
      rw [if_neg hm, ih (s + 1) ha']
      have hidx : (user :: rest).findIdx
          (fun user => pyLower user.username == pyLower username_to_delete) =
          rest.findIdx (fun user => pyLower user.username == pyLower username_to_delete) + 1 := by
        simp [List.findIdx_cons, hm']
      rw [hidx]
      have harith : s + 1 + rest.findIdx
          (fun user => pyLower user.username == pyLower username_to_delete) =
          s + (rest.findIdx (fun user => pyLower user.username == pyLower username_to_delete) + 1) := by
        omega
      rw [harith]

theorem countP_eraseIdx_findIdx {α : Type} (p : α → Bool) (l : List α)
    (h : l.any p = true) :
    (l.eraseIdx (l.findIdx p)).countP p + 1 = l.countP p := by
  induction l with
  | nil => cases h
  | cons a t ih =>
    by_cases hp : p a
    · simp [List.findIdx_cons, hp, List.countP_cons]
    · have ht : t.any p = true := by
        simpa [List.any_cons, hp] using h
      simp only [List.findIdx_cons, hp, Bool.false_eq_true, if_false,
        List.eraseIdx_cons_succ, List.countP_cons, hp]
      simpa [hp] using ih ht

/-- C10: deleting a user by username deletes at most one row: the scan walks
the fetched users table from the first data row upward and on the first
case-insensitive username match deletes exactly that row, clears the users
cache and returns true, leaving any later matching rows in place (the match
count drops by exactly one); when no row matches, nothing is deleted, the
cache is not touched, and false is returned. -/
theorem delete_user_spec (users_list : List UserRow) (username_to_delete : String) :
    ((∀ user ∈ users_list, ¬ pyLower user.username = pyLower username_to_delete) →
      delete_user_by_username users_list username_to_delete = ⟨false, users_list, false⟩) ∧
    ((∃ user ∈ users_list, pyLower user.username = pyLower username_to_delete) →
      (delete_user_by_username users_list username_to_delete).deleted = true ∧
      (delete_user_by_username users_list username_to_delete).cacheCleared = true ∧
      (delete_user_by_username users_list username_to_delete).remote =
        users_list.eraseIdx
          (users_list.findIdx (fun user => pyLower user.username == pyLower username_to_delete)) ∧
      (delete_user_by_username users_list username_to_delete).remote.countP
          (fun user => pyLower user.username == pyLower username_to_delete) + 1 =
        users_list.countP (fun user => pyLower user.username == pyLower username_to_delete) ∧
      (delete_user_by_username users_list username_to_delete).remote.length + 1 =
        users_list.length) := by
  constructor
  · intro hnone
    have ha : users_list.any
        (fun user => pyLower user.username == pyLower username_to_delete) = false := by
      rw [List.any_eq_false]
      intro user huser
      simp [hnone user huser]
    unfold delete_user_by_username
    rw [findMatchIndexFrom_none username_to_delete 2 users_list ha]
  · intro hex
    have hex' : ∃ user ∈ users_list,
        (fun user => pyLower user.username == pyLower username_to_delete) user = true := by
      rcases hex with ⟨user, huser, heq⟩
      exact ⟨user, huser, by simp [heq]⟩
    have ha : users_list.any
        (fun user => pyLower user.username == pyLower username_to_delete) = true := by
      rw [List.any_eq_true]
      rcases hex' with ⟨user, huser, heq⟩
      exact ⟨user, huser, heq⟩
    have hlt := List.findIdx_lt_length_of_exists hex'
    have hres : delete_user_by_username users_list username_to_delete =
        ⟨true,
         users_list.eraseIdx
           (2 + users_list.findIdx
              (fun user => pyLower user.username == pyLower username_to_delete) - 2),
         true⟩ := by
      unfold delete_user_by_username
      rw [findMatchIndexFrom_some username_to_delete 2 users_list ha]
    have hsub : 2 + users_list.findIdx
        (fun user => pyLower user.username == pyLower username_to_delete) - 2 =
        users_list.findIdx (fun user => pyLower user.username == pyLower username_to_delete) := by
      omega
    rw [hsub] at hres
    rw [hres]
    refine ⟨rfl, rfl, rfl, countP_eraseIdx_findIdx _ _ ha, ?_⟩
    have := List.length_eraseIdx_of_lt hlt
    simp only [this]
    omega

/-- Witness for `delete_user_spec`: with two rows both matching "ama"
case-insensitively, deletion removes only the first and returns true; with
no matching row nothing changes and it returns false. -/
theorem delete_user_spec_witness :
    (delete_user_by_username
        [⟨"A", "", "", "ama", "p1", "", ""⟩, ⟨"B", "", "", "AMA", "p2", "", ""⟩]
        "Ama").deleted = true ∧
    delete_user_by_username
        [⟨"A", "", "", "ama", "p1", "", ""⟩, ⟨"B", "", "", "AMA", "p2", "", ""⟩]
        "kofi" =
      ⟨false, [⟨"A", "", "", "ama", "p1", "", ""⟩, ⟨"B", "", "", "AMA", "p2", "", ""⟩], false⟩ :=
  ⟨((delete_user_spec
        [⟨"A", "", "", "ama", "p1", "", ""⟩, ⟨"B", "", "", "AMA", "p2", "", ""⟩]
        "Ama").2 ⟨⟨"A", "", "", "ama", "p1", "", ""⟩, by decide, by decide⟩).1,
   (delete_user_spec
        [⟨"A", "", "", "ama", "p1", "", ""⟩, ⟨"B", "", "", "AMA", "p2", "", ""⟩]
        "kofi").1 (by decide)⟩

/-- C1: a dataset submission by a logged-in user whose stripped-and-lowered
text pair already occurs in the dataset on a row whose username equals the
session username case-insensitively is rejected with a duplicate warning and
nothing is appended to the remote dataset table; when no row of the dataset
carries the submitting username (case-insensitively), the duplicate check
cannot reject, and a (nonempty, successfully appended) submission goes
through. -/
theorem duplicate_submission_rejected (dataset : List DatasetRow)
    (sessionUsername select_date twi english : String) (remote : List DatasetRow)
    (appendOk : Bool)
    (h1 : pyStrip twi ≠ "") (h2 : pyStrip english ≠ "") :
    ((∃ row ∈ dataset,
        pyLower (pyStrip row.ewe) = pyLower (pyStrip twi) ∧
        pyLower (pyStrip row.english) = pyLower (pyStrip english) ∧
        pyLower row.username = pyLower sessionUsername) →
      data_collection_submit dataset sessionUsername select_date twi english remote appendOk =
        ⟨.warnDuplicate, remote, 0⟩) ∧
    ((∀ row ∈ dataset, pyLower row.username ≠ pyLower sessionUsername) →
      data_collection_submit dataset sessionUsername select_date twi english remote true =
        ⟨.success, remote ++ [⟨select_date, pyStrip twi, pyStrip english, sessionUsername⟩], 1⟩) := by
  have hne : (pyStrip twi == "" || pyStrip english == "") = false := by
    simp [h1, h2]
  constructor
  · intro hex
    have hdup : duplicate_found dataset twi english sessionUsername = true := by
      unfold duplicate_found
      rw [List.any_eq_true]
      rcases hex with ⟨row, hrow, e1, e2, e3⟩
      exact ⟨row, hrow, by simp [e1, e2, e3]⟩
    simp [data_collection_submit, hne, hdup]
  · intro hall
    have hdup : duplicate_found dataset twi english sessionUsername = false := by
      unfold duplicate_found
      rw [List.any_eq_false]
      intro row hrow
      simp [hall row hrow]
    simp [data_collection_submit, hne, hdup]

/-- Witness for `duplicate_submission_rejected`: the entry
("Me da wo ase", "Thank you", "kwame") blocks resubmission of the same pair
(case- and whitespace-insensitively) by "Kwame", while "ama" can submit the
identical pair. -/
theorem duplicate_submission_rejected_witness :
    data_collection_submit [⟨"2024-01-01", "Me da wo ase", "Thank you", "kwame"⟩]
        "Kwame" "2024-02-02" " me da wo ase" "THANK YOU " ([] : List DatasetRow) true =
      ⟨.warnDuplicate, [], 0⟩ ∧
    data_collection_submit [⟨"2024-01-01", "Me da wo ase", "Thank you", "kwame"⟩]
        "ama" "2024-02-02" " me da wo ase" "THANK YOU " ([] : List DatasetRow) true =
      ⟨.success, [⟨"2024-02-02", "me da wo ase", "THANK YOU", "ama"⟩], 1⟩ := by
  refine ⟨?_, ?_⟩
  · exact (duplicate_submission_rejected
      [⟨"2024-01-01", "Me da wo ase", "Thank you", "kwame"⟩]
      "Kwame" "2024-02-02" " me da wo ase" "THANK YOU " ([] : List DatasetRow) true
      (by decide) (by decide)).1 (by decide)
  · have h := (duplicate_submission_rejected
      [⟨"2024-01-01", "Me da wo ase", "Thank you", "kwame"⟩]
      "ama" "2024-02-02" " me da wo ase" "THANK YOU " ([] : List DatasetRow) true
      (by decide) (by decide)).2 (by decide)
    rw [h]
    decide

/-- C6: on a registration attempt that passes the field validations, if the
submitted (stripped) username collides case-insensitively with the username
of some record in the consulted users collection, registration fails with
the duplicate-username error and no row is appended; otherwise (remote
append succeeding) the new user row is appended. -/
theorem registration_rejects_duplicate_username (usersCache : Option (List UserRow))
    (remoteUsers : List UserRow)
    (name username password repassword momo_contact momo_name call_contact email : String)
    (appendOk : Bool)
    (h1 : pyStrip name ≠ "") (h2 : pyStrip username ≠ "") (h3 : pyStrip password ≠ "")
    (h4 : pyStrip password = pyStrip repassword)
    (h5 : ¬ (pyStrip password).length < 4) :
    ((∃ user ∈ usersCache.getD remoteUsers,
        pyLower user.username = pyLower (pyStrip username)) →
      registration_submit usersCache remoteUsers
          name username password repassword momo_contact momo_name call_contact email appendOk =
        ⟨.errorDuplicate, remoteUsers, if usersCache.isSome then 0 else 1, 0⟩) ∧
    ((∀ user ∈ usersCache.getD remoteUsers,
        pyLower user.username ≠ pyLower (pyStrip username)) →
      registration_submit usersCache remoteUsers
          name username password repassword momo_contact momo_name call_contact email true =
        ⟨.success,
         remoteUsers ++ [⟨pyStrip name, pyStrip momo_contact, pyStrip call_contact,
           pyStrip username, pyStrip password, pyStrip email, pyStrip momo_name⟩],
         if usersCache.isSome then 0 else 1, 1⟩) := by
  have hne : (pyStrip name == "" || (pyStrip username == "" || pyStrip password == "")) = false := by
    simp [h1, h2, h3]
  have hmm : (pyStrip password != pyStrip repassword) = false := by
    simp [h4]
  constructor
  · intro hex
    have hdup : username_exists (usersCache.getD remoteUsers) (pyStrip username) = true := by
      unfold username_exists
      rw [List.any_eq_true]
      rcases hex with ⟨user, huser, e⟩
      exact ⟨user, huser, by simp [e]⟩
    simp [registration_submit, hne, hmm, h5, hdup]
    exact ⟨⟨h1, h2⟩, h3⟩
  · intro hall
    have hdup : username_exists (usersCache.getD remoteUsers) (pyStrip username) = false := by
      unfold username_exists
      rw [List.any_eq_false]
      intro user huser
      simp [hall user huser]
    simp [registration_submit, hne, hmm, h5, hdup]
    exact ⟨⟨h1, h2⟩, h3⟩

/-- Witness for `registration_rejects_duplicate_username`: with an existing
user "ama", registering "AMA" is rejected as a duplicate; registering "yaw"
appends the new row. -/
theorem registration_rejects_duplicate_username_witness :
    registration_submit (some [⟨"Ama", "", "", "ama", "secret99", "", ""⟩]) []
        "Abena" "AMA" "pass1234" "pass1234" "" "" "" "" true =
      ⟨.errorDuplicate, [], 0, 0⟩ ∧
    registration_submit (some [⟨"Ama", "", "", "ama", "secret99", "", ""⟩]) []
        "Abena" "yaw" "pass1234" "pass1234" "" "" "" "" true =
      ⟨.success, [] ++ [⟨"Abena", "", "", "yaw", "pass1234", "", ""⟩], 0, 1⟩ := by
  refine ⟨?_, ?_⟩
  · exact (registration_rejects_duplicate_username
      (some [⟨"Ama", "", "", "ama", "secret99", "", ""⟩]) []
      "Abena" "AMA" "pass1234" "pass1234" "" "" "" "" true
      (by decide) (by decide) (by decide) (by decide) (by decide)).1 (by decide)
  · have h := (registration_rejects_duplicate_username
      (some [⟨"Ama", "", "", "ama", "secret99", "", ""⟩]) []
      "Abena" "yaw" "pass1234" "pass1234" "" "" "" "" true
      (by decide) (by decide) (by decide) (by decide) (by decide)).2 (by decide)
    rw [h]
    decide

/-- C7 counterexample: a registration attempt that fails the
duplicate-username validation does issue a remote call when no live users
snapshot exists — the duplicate check itself requires reading the users
collection, so the failing interaction performs one remote read (though no
write and no state change). This refutes the claim that every validation
failure issues no remote call. -/
theorem validation_failure_remote_read_counterexample :
    (registration_submit none [⟨"Ama", "", "", "ama", "secret99", "", ""⟩]
        "Abena" "AMA" "pass1234" "pass1234" "" "" "" "" true).outcome =
      RegOutcome.errorDuplicate ∧
    (registration_submit none [⟨"Ama", "", "", "ama", "secret99", "", ""⟩]
        "Abena" "AMA" "pass1234" "pass1234" "" "" "" "" true).remoteReads = 1 := by
  decide

/-- C7 (amended): empty-field, password-mismatch and password-length
failures are detected before any remote access and issue no remote call and
no change; duplicate-username and duplicate-entry failures issue no remote
write and change no table or session state, but the duplicate-username check
consults the users collection, issuing one remote read when no live cached
snapshot exists (and none when it does); the duplicate-entry check only
scans the dataset list already fetched when the page rendered, issuing no
further call. -/
theorem validation_failures_no_state_change (usersCache : Option (List UserRow))
    (remoteUsers : List UserRow)
    (name username password repassword momo_contact momo_name call_contact email : String)
    (appendOk : Bool) (dataset : List DatasetRow) (sessionUsername : String)
    (select_date twi english : String) (remote : List DatasetRow) :
    ((pyStrip name = "" ∨ pyStrip username = "" ∨ pyStrip password = "") →
      registration_submit usersCache remoteUsers
          name username password repassword momo_contact momo_name call_contact email appendOk =
        ⟨.errorEmpty, remoteUsers, 0, 0⟩) ∧
    (pyStrip name ≠ "" → pyStrip username ≠ "" → pyStrip password ≠ "" →
      pyStrip password ≠ pyStrip repassword →
      registration_submit usersCache remoteUsers
          name username password repassword momo_contact momo_name call_contact email appendOk =
        ⟨.errorMismatch, remoteUsers, 0, 0⟩) ∧
    (pyStrip name ≠ "" → pyStrip username ≠ "" → pyStrip password ≠ "" →
      pyStrip password = pyStrip repassword → (pyStrip password).length < 4 →
      registration_submit usersCache remoteUsers
          name username password repassword momo_contact momo_name call_contact email appendOk =
        ⟨.errorTooShort, remoteUsers, 0, 0⟩) ∧
    ((registration_submit usersCache remoteUsers
          name username password repassword momo_contact momo_name call_contact email
          appendOk).outcome = .errorDuplicate →
      (registration_submit usersCache remoteUsers
          name username password repassword momo_contact momo_name call_contact email
          appendOk).remoteUsers = remoteUsers ∧
      (registration_submit usersCache remoteUsers
          name username password repassword momo_contact momo_name call_contact email
          appendOk).remoteWrites = 0 ∧
      (registration_submit usersCache remoteUsers
          name username password repassword momo_contact momo_name call_contact email
          appendOk).remoteReads = (if usersCache.isSome then 0 else 1)) ∧
    ((pyStrip twi = "" ∨ pyStrip english = "") →
      data_collection_submit dataset sessionUsername select_date twi english remote appendOk =
        ⟨.errorEmpty, remote, 0⟩) ∧
    (pyStrip twi ≠ "" → pyStrip english ≠ "" →
      duplicate_found dataset twi english sessionUsername = true →
      data_collection_submit dataset sessionUsername select_date twi english remote appendOk =
        ⟨.warnDuplicate, remote, 0⟩) := by
  refine ⟨?_, ?_, ?_, ?_, ?_, ?_⟩
  · intro h
    rcases h with h | h | h <;> simp [registration_submit, h]
  · intro h1 h2 h3 h4
    simp [registration_submit, h1, h2, h3, h4]
  · intro h1 h2 h3 h4 h5
    have hbne : (pyStrip password != pyStrip repassword) = false := by simp [h4]
    simp [registration_submit, h1, h2, h3, hbne, h5]
  · intro hout
    by_cases c1 : (pyStrip name == "" || pyStrip username == "" || pyStrip password == "") = true
    · simp [registration_submit, c1] at hout
    · by_cases c2 : (pyStrip password != pyStrip repassword) = true
      · simp [registration_submit, c1, c2] at hout
      · by_cases c3 : (pyStrip password).length < 4
        · simp [registration_submit, c1, c2, c3] at hout
        · by_cases c4 : username_exists (usersCache.getD remoteUsers) (pyStrip username) = true
          · simp [registration_submit, c1, c2, c3, c4]
          · by_cases c5 : appendOk = true
            · simp [registration_submit, c1, c2, c3, c4, c5] at hout
            · simp [registration_submit, c1, c2, c3, c4, c5] at hout
  · intro h
    rcases h with h | h <;> simp [data_collection_submit, h]
  · intro h1 h2 hdup
    simp [data_collection_submit, h1, h2, hdup]

/-- Witness for `validation_failures_no_state_change`: each validation
failure at a concrete input, checking the reported result and absence of
writes. -/
theorem validation_failures_no_state_change_witness :
    registration_submit (some []) [] "" "yaw" "pass1234" "pass1234" "" "" "" "" true =
      ⟨.errorEmpty, [], 0, 0⟩ ∧
    registration_submit (some []) [] "Yaw" "yaw" "pass1234" "pass9999" "" "" "" "" true =
      ⟨.errorMismatch, [], 0, 0⟩ ∧
    registration_submit (some []) [] "Yaw" "yaw" "abc" "abc" "" "" "" "" true =
      ⟨.errorTooShort, [], 0, 0⟩ ∧
    (registration_submit (some [⟨"Ama", "", "", "ama", "secret99", "", ""⟩]) []
        "Abena" "AMA" "pass1234" "pass1234" "" "" "" "" true).remoteWrites = 0 ∧
    data_collection_submit [] "kwame" "2024-01-01" "  " "hello" [] true =
      ⟨.errorEmpty, [], 0⟩ ∧
    data_collection_submit [⟨"2024-01-01", "aane", "yes", "kwame"⟩] "kwame"
        "2024-01-01" "aane" "yes" [] true =
      ⟨.warnDuplicate, [], 0⟩ := by
  refine ⟨?_, ?_, ?_, ?_, ?_, ?_⟩
  · exact (validation_failures_no_state_change (some []) []
      "" "yaw" "pass1234" "pass1234" "" "" "" "" true [] "" "" "" "" []).1
      (Or.inl (by decide))
  · exact (validation_failures_no_state_change (some []) []
      "Yaw" "yaw" "pass1234" "pass9999" "" "" "" "" true [] "" "" "" "" []).2.1
      (by decide) (by decide) (by decide) (by decide)
  · exact (validation_failures_no_state_change (some []) []
      "Yaw" "yaw" "abc" "abc" "" "" "" "" true [] "" "" "" "" []).2.2.1
      (by decide) (by decide) (by decide) (by decide) (by decide)
  · exact ((validation_failures_no_state_change
      (some [⟨"Ama", "", "", "ama", "secret99", "", ""⟩]) []
      "Abena" "AMA" "pass1234" "pass1234" "" "" "" "" true [] "" "" "" "" []).2.2.2.1
      (by decide)).2.1
  · exact (validation_failures_no_state_change (some []) []
      "x" "x" "x" "x" "" "" "" "" true [] "kwame" "2024-01-01" "  " "hello" []).2.2.2.2.1
      (Or.inl (by decide))
  · exact (validation_failures_no_state_change (some []) []
      "x" "x" "x" "x" "" "" "" "" true
      [⟨"2024-01-01", "aane", "yes", "kwame"⟩] "kwame" "2024-01-01" "aane" "yes" []).2.2.2.2.2
      (by decide) (by decide) (by decide)

/-- C8 counterexample: with a stored record ("Admin", password "1345"), the
login attempt "admin"/"1345" satisfies the claim's premise (a stored record
matches case-insensitively with exactly equal password), but the hardcoded
admin branch fires first: the session gets is_admin = true and username
"admin", not the stored record's username "Admin" with is_admin = false. -/
theorem login_admin_overlap_counterexample :
    (∃ user ∈ [(⟨"A", "", "", "Admin", "1345", "", ""⟩ : UserRow)],
        pyLower user.username = pyLower (pyStrip "admin") ∧
        user.password = pyStrip "1345") ∧
    (login_submit [⟨"A", "", "", "Admin", "1345", "", ""⟩] ⟨false, "", false⟩
        "admin" "1345").2.is_admin = true ∧
    (login_submit [⟨"A", "", "", "Admin", "1345", "", ""⟩] ⟨false, "", false⟩
        "admin" "1345").2.username = "admin" := by
  decide

/-- C8 (amended): for a login attempt with nonempty stripped fields that is
not the hardcoded admin pair (username lowering to "admin" with password
"1345"): if the stripped username matches some stored record
case-insensitively and the stripped password equals that record's password
exactly, the session becomes logged_in = true with is_admin = false and the
session username is the first such record's stored username; if no record
matches, a wrong-credentials message is shown and the session is unchanged,
so it stays logged out. -/
theorem login_user_path (users : List UserRow) (session : Session)
    (username100 password100 : String)
    (h1 : pyStrip username100 ≠ "") (h2 : pyStrip password100 ≠ "")
    (hadm : ¬(pyLower (pyStrip username100) = "admin" ∧ pyStrip password100 = "1345")) :
    ((∃ user ∈ users, pyLower user.username = pyLower (pyStrip username100) ∧
        user.password = pyStrip password100) →
      (login_submit users session username100 password100).1 = .userSuccess ∧
      (login_submit users session username100 password100).2.logged_in = true ∧
      (login_submit users session username100 password100).2.is_admin = false ∧
      ∃ user ∈ users, pyLower user.username = pyLower (pyStrip username100) ∧
        user.password = pyStrip password100 ∧
        (login_submit users session username100 password100).2.username = user.username) ∧
    ((∀ user ∈ users, ¬(pyLower user.username = pyLower (pyStrip username100) ∧
        user.password = pyStrip password100)) →
      login_submit users session username100 password100 = (.errorWrong, session)) := by
  have hne : (pyStrip username100 == "" || pyStrip password100 == "") = false := by
    simp [h1, h2]
  have hadm' : (pyLower (pyStrip username100) == "admin" &&
      (pyStrip password100 == "1345")) = false := by
    rcases Classical.em (pyLower (pyStrip username100) = "admin") with hA | hA
    · have hB : pyStrip password100 ≠ "1345" := fun hB => hadm ⟨hA, hB⟩
      simp [hB]
    · simp [hA]
  constructor
  · intro hex
    have hs : (users.find? (fun user =>
        pyLower user.username == pyLower (pyStrip username100) &&
        user.password == pyStrip password100)).isSome := by
      rw [List.find?_isSome]
      rcases hex with ⟨user, hu, e1, e2⟩
      exact ⟨user, hu, by simp [e1, e2]⟩
    rcases Option.isSome_iff_exists.mp hs with ⟨user, hfind⟩
    have hmem := List.mem_of_find?_eq_some hfind
    have hp := List.find?_some hfind
    rw [Bool.and_eq_true, beq_iff_eq, beq_iff_eq] at hp
    have hres : login_submit users session username100 password100 =
        (.userSuccess, ⟨true, user.username, false⟩) := by
      unfold login_submit
      dsimp only
      rw [if_neg (by simp [hne]), if_neg (by simp [hadm']), hfind]
    rw [hres]
    exact ⟨rfl, rfl, rfl, user, hmem, hp.1, hp.2, rfl⟩
  · intro hall
    have hnone : users.find? (fun user =>
        pyLower user.username == pyLower (pyStrip username100) &&
        user.password == pyStrip password100) = none := by
      rw [List.find?_eq_none]
      intro user hu
      have := hall user hu
      simp only [Bool.and_eq_true, beq_iff_eq]
      exact this
    unfold login_submit
    dsimp only
    rw [if_neg (by simp [hne]), if_neg (by simp [hadm']), hnone]

/-- Witness for `login_user_path`: register "abena"/"pass1234"; logging in
with the right password succeeds as a non-admin session under the stored
username, and a wrong password leaves the session logged out. -/
theorem login_user_path_witness :
    login_submit [⟨"Abena", "", "", "abena", "pass1234", "", ""⟩] ⟨false, "", false⟩
        "abena" "pass1234" =
      (.userSuccess, ⟨true, "abena", false⟩) ∧
    login_submit [⟨"Abena", "", "", "abena", "pass1234", "", ""⟩] ⟨false, "", false⟩
        "abena" "wrongpass" =
      (.errorWrong, ⟨false, "", false⟩) := by
  constructor
  · have h := (login_user_path [⟨"Abena", "", "", "abena", "pass1234", "", ""⟩]
      ⟨false, "", false⟩ "abena" "pass1234"
      (by decide) (by decide) (by decide)).1 (by decide)
    rcases h with ⟨h1, h2, h3, user, hmem, he1, he2, he4⟩
    have huser : user = ⟨"Abena", "", "", "abena", "pass1234", "", ""⟩ := by
      simpa using hmem
    rcases hfind : login_submit [⟨"Abena", "", "", "abena", "pass1234", "", ""⟩]
        ⟨false, "", false⟩ "abena" "pass1234" with ⟨o, s⟩
    rw [hfind] at h1 h2 h3 he4
    subst huser
    simp only at h1 h2 h3 he4
    cases s
    simp only at h2 h3 he4
    simp [h1, h2, h3, he4]
  · exact (login_user_path [⟨"Abena", "", "", "abena", "pass1234", "", ""⟩]
      ⟨false, "", false⟩ "abena" "wrongpass"
      (by decide) (by decide) (by decide)).2 (by decide)

/-- C9: the single hardcoded administrator pair — submitted username
lowering to "admin" with submitted password exactly "1345" (both after the
handler's strip) — logs in as the admin session without consulting the users
table (the result is identical for every users table), and it is the only
way a login attempt can produce an is_admin session: starting from a
non-admin session, the resulting session has is_admin = true exactly when
the submission is that pair. -/
theorem admin_login_bypasses_users (users users' : List UserRow) (session : Session)
    (username100 password100 : String)
    (hS : session.is_admin = false)
    (hA : pyLower (pyStrip username100) = "admin")
    (hB : pyStrip password100 = "1345") :
    login_submit users session username100 password100 =
      (.adminSuccess, ⟨true, "admin", true⟩) ∧
    login_submit users session username100 password100 =
      login_submit users' session username100 password100 ∧
    (∀ u p, ((login_submit users session u p).2.is_admin = true ↔
      (pyLower (pyStrip u) = "admin" ∧ pyStrip p = "1345"))) := by
  have key : ∀ (u p : String), pyLower (pyStrip u) = "admin" → pyStrip p = "1345" →
      ∀ us : List UserRow, login_submit us session u p =
        (.adminSuccess, ⟨true, "admin", true⟩) := by
    intro u p hA' hB' us
    have hu : pyStrip u ≠ "" := by
      intro h
      rw [h] at hA'
      exact absurd hA' (by decide)
    have hp : pyStrip p ≠ "" := by
      intro h
      rw [h] at hB'
      exact absurd hB' (by decide)
    have hne : (pyStrip u == "" || pyStrip p == "") = false := by
      simp [hu, hp]
    have hcond : (pyLower (pyStrip u) == "admin" && (pyStrip p == "1345")) = true := by
      simp [hA', hB']
    unfold login_submit
    dsimp only
    rw [if_neg (by simp [hne]), if_pos hcond]
  refine ⟨key username100 password100 hA hB users,
    (key username100 password100 hA hB users).trans
      (key username100 password100 hA hB users').symm, ?_⟩
  intro u p
  constructor
  · intro htrue
    by_contra hnot
    have hadm' : (pyLower (pyStrip u) == "admin" && (pyStrip p == "1345")) = false := by
      rcases Classical.em (pyLower (pyStrip u) = "admin") with hA' | hA'
      · have hB' : pyStrip p ≠ "1345" := fun hB' => hnot ⟨hA', hB'⟩
        simp [hB']
      · simp [hA']
    by_cases hne : (pyStrip u == "" || pyStrip p == "") = true
    · unfold login_submit at htrue
      dsimp only at htrue
      rw [if_pos hne] at htrue
      simp [hS] at htrue
    · unfold login_submit at htrue
      dsimp only at htrue
      rw [if_neg hne, if_neg (by simp [hadm'])] at htrue
      rcases hfind : users.find? (fun user =>
          pyLower user.username == pyLower (pyStrip u) &&
          user.password == pyStrip p) with _ | user
      · rw [hfind] at htrue
        simp [hS] at htrue
      · rw [hfind] at htrue
        simp at htrue
  · rintro ⟨hA', hB'⟩
    rw [key u p hA' hB' users]

/-- Witness for `admin_login_bypasses_users`: "Admin" / " 1345 " (stripped)
logs in as the hardcoded administrator on an empty users table. -/
theorem admin_login_bypasses_users_witness :
    login_submit [] ⟨false, "", false⟩ "Admin" " 1345 " =
      (.adminSuccess, ⟨true, "admin", true⟩) :=
  (admin_login_bypasses_users [] [⟨"A", "", "", "a", "b", "", ""⟩] ⟨false, "", false⟩
    "Admin" " 1345 " (by decide) (by decide) (by decide)).1

end Twi
